import Mathlib

/-!
Verification of the `eek` geometric and symbol data model of squeekboard
(src/eek/eek-types.h), shallowly embedded in Lean 4.

C `gdouble` values are embedded as exact rationals `ℚ` (the claims under
study concern exact arithmetic on the canonical inputs, not floating-point
rounding), `gint` as `Int`, `guint` symbol codes as `Nat`.
-/

/-- 2D vertex (struct _EekPoint, src/eek/eek-types.h lines 101-105). -/
structure EekPoint where
  x : ℚ
  y : ℚ
deriving DecidableEq, Repr

/-- Rectangle containing an element's bounding box
(struct _EekBounds, src/eek/eek-types.h lines 120-127). -/
structure EekBounds where
  x : ℚ
  y : ℚ
  width : ℚ
  height : ℚ
deriving DecidableEq, Repr

/-- Color used for drawing (struct _EekColor, src/eek/eek-types.h lines 163-169). -/
structure EekColor where
  red : ℚ
  green : ℚ
  blue : ℚ
  alpha : ℚ
deriving DecidableEq, Repr

/-- Symbol matrix of a key (struct _EekKeysymMatrix, src/eek/eek-types.h
lines 85-90): `data` is a flat array of keysym codes, addressed row-major by
group; `num_groups` and `num_levels` are C `gint`s. -/
structure EekKeysymMatrix where
  data : List Nat
  num_groups : Int
  num_levels : Int
deriving DecidableEq, Repr

/-- The long side of a bounding box, embedded from the inline body at
src/eek/eek-types.h lines 131-135:
`return bounds->width > bounds->height ? bounds->width : bounds->height;` -/
def eek_bounds_long_side (bounds : EekBounds) : ℚ :=
  if bounds.width > bounds.height then bounds.width else bounds.height

/-- Claim C1: for every bounds `b`, `eek_bounds_long_side b` equals
`max b.width b.height`; in particular it is `5` on
`{x := 0, y := 0, width := 5, height := 3}` and `2` when width and height
are both `2`. -/
theorem long_side_eq_max :
    (∀ b : EekBounds, eek_bounds_long_side b = max b.width b.height) ∧
    eek_bounds_long_side ⟨0, 0, 5, 3⟩ = 5 ∧
    eek_bounds_long_side ⟨0, 0, 2, 2⟩ = 2 := by
  refine ⟨fun b => ?_, by norm_num [eek_bounds_long_side], by norm_num [eek_bounds_long_side]⟩
  unfold eek_bounds_long_side
  rcases le_or_lt b.width b.height with h | h
  · rw [if_neg (not_lt.mpr h), max_eq_right h]
  · rw [if_pos h, max_eq_left h.le]

/-- Claim C9: `eek_bounds_long_side` reads only the `width` and `height`
fields: two bounds agreeing on width and height but possibly differing in
`x`/`y` yield the same long side. -/
theorem long_side_noninterference (b1 b2 : EekBounds)
    (hw : b1.width = b2.width) (hh : b1.height = b2.height) :
    eek_bounds_long_side b1 = eek_bounds_long_side b2 := by
  unfold eek_bounds_long_side
  rw [hw, hh]

/-- Witness for claim C9 at two concrete bounds differing only in x and y. -/
theorem long_side_noninterference_witness :
    eek_bounds_long_side ⟨0, 0, 5, 3⟩ = eek_bounds_long_side ⟨7, -4, 5, 3⟩ :=
  long_side_noninterference ⟨0, 0, 5, 3⟩ ⟨7, -4, 5, 3⟩ rfl rfl

/-- Claim C10: the long side is always literally one of the two fields, the
tie `width = height` resolves to the `height` branch of the conditional, and
this holds for arbitrary (even negative) field values. -/
theorem long_side_is_a_field :
    ∀ b : EekBounds,
      (eek_bounds_long_side b = b.width ∨ eek_bounds_long_side b = b.height) ∧
      (b.width = b.height → eek_bounds_long_side b = b.height) := by
  intro b
  unfold eek_bounds_long_side
  constructor
  · rcases lt_or_le b.height b.width with h | h
    · exact Or.inl (if_pos h)
    · exact Or.inr (if_neg (not_lt.mpr h))
  · intro he
    exact if_neg (by rw [he]; exact lt_irrefl _)

/-- Witness for claim C10 at a tie with negative fields. -/
theorem long_side_is_a_field_witness :
    (eek_bounds_long_side ⟨1, 2, -3, -3⟩ = (-3 : ℚ) ∨
      eek_bounds_long_side ⟨1, 2, -3, -3⟩ = (-3 : ℚ)) ∧
    eek_bounds_long_side ⟨1, 2, -3, -3⟩ = (-3 : ℚ) :=
  ⟨(long_side_is_a_field ⟨1, 2, -3, -3⟩).1,
   (long_side_is_a_field ⟨1, 2, -3, -3⟩).2 rfl⟩

/-- Modelled from the spec: the body of `eek_point_rotate` is absent from
src/ (src/eek/eek-types.h lines 108-109 only declare it). Per spec §4.1 the
angle is restricted to multiples of 90 degrees and multiples of 90 are
special-cased with exact sign/swap arithmetic, rotating about the origin. -/
def eek_point_rotate (point : EekPoint) (angle : Int) : EekPoint :=
  if angle % 360 = 90 then ⟨-point.y, point.x⟩
  else if angle % 360 = 180 then ⟨-point.x, -point.y⟩
  else if angle % 360 = 270 then ⟨point.y, -point.x⟩
  else point

/-- Modelled from the spec: spec §4.1 states that `eek_point_rotate` has no
side effects beyond returning the rotated value. A call made in a context
holding shared state (other points of the layout) is embedded as a pure
state transformer pairing the post-call shared state with the returned
point. -/
def eek_point_rotate_call (shared : List EekPoint) (point : EekPoint)
    (angle : Int) : List EekPoint × EekPoint :=
  (shared, eek_point_rotate point angle)

/-- Claim C2: calling rotate leaves every piece of shared state unchanged
(every cell of the surrounding state reads the same afterwards, and the
input point value itself is untouched) and yields the rotated point as its
result. -/
theorem rotate_no_side_effects (shared : List EekPoint) (p : EekPoint) (a : Int) :
    (eek_point_rotate_call shared p a).1 = shared ∧
    (∀ i : Nat, (eek_point_rotate_call shared p a).1.get? i = shared.get? i) ∧
    (eek_point_rotate_call shared p a).2 = eek_point_rotate p a :=
  ⟨rfl, fun _ => rfl, rfl⟩

/-- Claim C3: rotation is exact at the canonical right angles on `(1, 0)`:
90 degrees gives `(0, 1)`, 180 gives `(-1, 0)`, 270 gives `(0, -1)`, with
no rounding error (coordinates are exact rationals). -/
theorem rotate_canonical_exact :
    eek_point_rotate ⟨1, 0⟩ 90 = ⟨0, 1⟩ ∧
    eek_point_rotate ⟨1, 0⟩ 180 = ⟨-1, 0⟩ ∧
    eek_point_rotate ⟨1, 0⟩ 270 = ⟨0, -1⟩ := by
  refine ⟨?_, ?_, ?_⟩ <;> simp [eek_point_rotate]

/-- Claim C4: for every point `p` and `k` in `{0, 1, 2, 3}`, rotating by 90
and then by `90 * k` equals rotating by `90 * (k + 1)` in one step, and a
full 360-degree rotation is the identity (exactly, hence within any
floating-point tolerance). -/
theorem rotate_compose_identity (p : EekPoint) (k : Int)
    (hk : k = 0 ∨ k = 1 ∨ k = 2 ∨ k = 3) :
    eek_point_rotate (eek_point_rotate p 90) (90 * k) =
      eek_point_rotate p (90 * (k + 1)) ∧
    eek_point_rotate p 360 = p := by
  constructor
  · rcases hk with h | h | h | h <;> subst h <;>
      simp [eek_point_rotate]
  · simp [eek_point_rotate]

/-- Witness for claim C4 at `p = (3, 7)` and `k = 2`. -/
theorem rotate_compose_identity_witness :
    eek_point_rotate (eek_point_rotate ⟨3, 7⟩ 90) (90 * 2) =
      eek_point_rotate ⟨3, 7⟩ (90 * (2 + 1)) ∧
    eek_point_rotate ⟨3, 7⟩ 360 = ⟨3, 7⟩ :=
  rotate_compose_identity ⟨3, 7⟩ 2 (Or.inr (Or.inr (Or.inl rfl)))

/-- Error conditions of the KeysymMatrix operations, per spec §7:
IndexError for out-of-bounds access, ShapeMismatch for a construction whose
flat data length disagrees with `num_groups * num_levels`. -/
inductive EekMatrixError where
  | indexError
  | shapeMismatch
deriving DecidableEq, Repr

/-- Modelled from the spec: src/ only declares the `EekKeysymMatrix` struct
(src/eek/eek-types.h lines 85-90); the accessor bodies are absent. Spec §4.4:
`get_symbol` fails with an IndexError-kind condition when `group` lies
outside `[0, num_groups)` or `level` outside `[0, num_levels)`, and otherwise
returns `data[group * num_levels + level]` (row-major by group). -/
def eek_keysym_matrix_get_symbol (m : EekKeysymMatrix) (group level : Int) :
    Except EekMatrixError Nat :=
  if 0 ≤ group ∧ group < m.num_groups ∧ 0 ≤ level ∧ level < m.num_levels then
    .ok (m.data.getD (group * m.num_levels + level).toNat 0)
  else
    .error .indexError

/-- Modelled from the spec: the body of `set_symbol` is absent from src/.
Spec §4.4: same bounds contract as `get_symbol`; overwrites the slot. -/
def eek_keysym_matrix_set_symbol (m : EekKeysymMatrix) (group level : Int)
    (symbol : Nat) : Except EekMatrixError EekKeysymMatrix :=
  if 0 ≤ group ∧ group < m.num_groups ∧ 0 ≤ level ∧ level < m.num_levels then
    .ok { m with data := m.data.set (group * m.num_levels + level).toNat symbol }
  else
    .error .indexError

/-- Modelled from the spec: no constructor body is in src/. Spec §4.4:
construction from a flat sequence plus explicit `num_groups`/`num_levels`
validates `data.length = num_groups * num_levels` and fails with a
ShapeMismatch-kind condition otherwise. -/
def eek_keysym_matrix_new (data : List Nat) (num_groups num_levels : Int) :
    Except EekMatrixError EekKeysymMatrix :=
  if (data.length : Int) = num_groups * num_levels then
    .ok ⟨data, num_groups, num_levels⟩
  else
    .error .shapeMismatch

/-- Under the length invariant, an in-bounds (group, level) pair addresses a
valid position of the flat data array. -/
theorem matrix_index_lt (m : EekKeysymMatrix)
    (hinv : (m.data.length : Int) = m.num_groups * m.num_levels)
    (g l : Int) (h : 0 ≤ g ∧ g < m.num_groups ∧ 0 ≤ l ∧ l < m.num_levels) :
    (g * m.num_levels + l).toNat < m.data.length := by
  obtain ⟨hg0, hgG, hl0, hlL⟩ := h
  have hL0 : 0 ≤ m.num_levels := le_of_lt (lt_of_le_of_lt hl0 hlL)
  have h1 : g * m.num_levels + l < (m.data.length : Int) := by
    rw [hinv]
    nlinarith [mul_nonneg (by linarith : (0 : ℤ) ≤ m.num_groups - 1 - g) hL0]
  have h2 : 0 ≤ g * m.num_levels + l := add_nonneg (mul_nonneg hg0 hL0) hl0
  have h3 : ((g * m.num_levels + l).toNat : Int) < (m.data.length : Int) := by
    rw [Int.toNat_of_nonneg h2]
    exact h1
  exact_mod_cast h3

/-- Claim C5: on a matrix satisfying the length invariant, `get_symbol`
fails with IndexError exactly when the group or the level is out of its
declared range, and on an in-bounds pair it returns the element stored at
`data[group * num_levels + level]` — out-of-range access is never clamped
to a valid slot. -/
theorem get_symbol_contract (m : EekKeysymMatrix)
    (hinv : (m.data.length : Int) = m.num_groups * m.num_levels)
    (g l : Int) :
    (eek_keysym_matrix_get_symbol m g l = .error .indexError ↔
      ¬(0 ≤ g ∧ g < m.num_groups ∧ 0 ≤ l ∧ l < m.num_levels)) ∧
    ((0 ≤ g ∧ g < m.num_groups ∧ 0 ≤ l ∧ l < m.num_levels) →
      ∃ s, m.data[(g * m.num_levels + l).toNat]? = some s ∧
        eek_keysym_matrix_get_symbol m g l = .ok s) := by
  constructor
  · constructor
    · intro herr hb
      unfold eek_keysym_matrix_get_symbol at herr
      rw [if_pos hb] at herr
      exact Except.noConfusion herr
    · intro hb
      unfold eek_keysym_matrix_get_symbol
      rw [if_neg hb]
  · intro hb
    have hlt := matrix_index_lt m hinv g l hb
    refine ⟨m.data.getD (g * m.num_levels + l).toNat 0, ?_, ?_⟩
    · rw [List.getD_eq_getElem m.data 0 hlt]
      exact List.getElem?_eq_getElem hlt
    · unfold eek_keysym_matrix_get_symbol
      rw [if_pos hb]

/-- Witness for claim C5 on the 2x3 matrix [10, 20, 30, 40, 50, 60] at
group 1, level 2 (in bounds) and at group 2, level 0 (out of bounds). -/
theorem get_symbol_contract_witness :
    (¬(0 ≤ (2 : Int) ∧ (2 : Int) < 2 ∧ 0 ≤ (0 : Int) ∧ (0 : Int) < 3) →
      eek_keysym_matrix_get_symbol ⟨[10, 20, 30, 40, 50, 60], 2, 3⟩ 2 0 =
        .error .indexError) ∧
    ∃ s, ([10, 20, 30, 40, 50, 60] : List Nat)[(1 * 3 + 2 : Int).toNat]? = some s ∧
      eek_keysym_matrix_get_symbol ⟨[10, 20, 30, 40, 50, 60], 2, 3⟩ 1 2 = .ok s :=
  ⟨fun h => (get_symbol_contract ⟨[10, 20, 30, 40, 50, 60], 2, 3⟩ (by decide) 2 0).1.mpr h,
   (get_symbol_contract ⟨[10, 20, 30, 40, 50, 60], 2, 3⟩ (by decide) 1 2).2
     (by refine ⟨by decide, by decide, by decide, by decide⟩)⟩

/-- Claim C6: constructing a KeysymMatrix from a flat sequence succeeds —
yielding exactly the supplied fields — precisely when
`data.length = num_groups * num_levels`, and otherwise fails with
ShapeMismatch, returning no matrix at all; in particular a 5-element list
with 2 groups and 3 levels is rejected. -/
theorem matrix_new_contract (data : List Nat) (G L : Int) :
    ((data.length : Int) = G * L →
      eek_keysym_matrix_new data G L = .ok ⟨data, G, L⟩) ∧
    ((data.length : Int) ≠ G * L →
      eek_keysym_matrix_new data G L = .error .shapeMismatch) ∧
    eek_keysym_matrix_new [1, 2, 3, 4, 5] 2 3 = .error .shapeMismatch := by
  refine ⟨fun h => ?_, fun h => ?_, rfl⟩
  · unfold eek_keysym_matrix_new
    rw [if_pos h]
  · unfold eek_keysym_matrix_new
    rw [if_neg h]

/-- Witness for claim C6: a 6-element list forms a 2x3 matrix, a 5-element
list is rejected with ShapeMismatch. -/
theorem matrix_new_contract_witness :
    eek_keysym_matrix_new [10, 20, 30, 40, 50, 60] 2 3 =
      .ok ⟨[10, 20, 30, 40, 50, 60], 2, 3⟩ ∧
    eek_keysym_matrix_new [1, 2, 3, 4, 5] 2 3 = .error .shapeMismatch :=
  ⟨(matrix_new_contract [10, 20, 30, 40, 50, 60] 2 3).1 (by decide),
   (matrix_new_contract [1, 2, 3, 4, 5] 2 3).2.1 (by decide)⟩

/-- Claim C7: on a matrix satisfying the length invariant, writing symbol
`s` at an in-bounds (group, level) pair and reading the same pair back
yields `s`. -/
theorem set_get_roundtrip (m : EekKeysymMatrix)
    (hinv : (m.data.length : Int) = m.num_groups * m.num_levels)
    (g l : Int) (s : Nat)
    (hb : 0 ≤ g ∧ g < m.num_groups ∧ 0 ≤ l ∧ l < m.num_levels) :
    ∃ m2, eek_keysym_matrix_set_symbol m g l s = .ok m2 ∧
      eek_keysym_matrix_get_symbol m2 g l = .ok s := by
  have hlt := matrix_index_lt m hinv g l hb
  refine ⟨{ m with data := m.data.set (g * m.num_levels + l).toNat s }, ?_, ?_⟩
  · unfold eek_keysym_matrix_set_symbol
    rw [if_pos hb]
  · unfold eek_keysym_matrix_get_symbol
    rw [if_pos hb]
    have hlt2 : (g * m.num_levels + l).toNat <
        (m.data.set (g * m.num_levels + l).toNat s).length := by
      rw [List.length_set]
      exact hlt
    rw [List.getD_eq_getElem _ 0 hlt2, List.getElem_set_self hlt2]

/-- Witness for claim C7: writing 99 at group 1, level 2 of the 2x3 matrix
[10, 20, 30, 40, 50, 60] and reading it back yields 99. -/
theorem set_get_roundtrip_witness :
    ∃ m2, eek_keysym_matrix_set_symbol ⟨[10, 20, 30, 40, 50, 60], 2, 3⟩ 1 2 99 =
        .ok m2 ∧
      eek_keysym_matrix_get_symbol m2 1 2 = .ok 99 :=
  set_get_roundtrip ⟨[10, 20, 30, 40, 50, 60], 2, 3⟩ (by decide) 1 2 99
    ⟨by decide, by decide, by decide, by decide⟩

/-- Modelled from the spec: `eek_color_new` is declared at
src/eek/eek-types.h lines 173-176 with no body in src/; per spec §4.5 it is
a plain aggregate constructor performing no validation on its components. -/
def eek_color_new (red green blue alpha : ℚ) : EekColor :=
  { red := red, green := green, blue := blue, alpha := alpha }

/-- Claim C8: `eek_color_new` is a pure pass-through: each field of the
returned color equals the corresponding input exactly, for every input —
including components outside `[0, 1]`, which are not rejected — and in
particular `eek_color_new 0.2 0.4 0.6 1.0` carries those exact four
fields. -/
theorem color_new_passthrough :
    (∀ red green blue alpha : ℚ,
      (eek_color_new red green blue alpha).red = red ∧
      (eek_color_new red green blue alpha).green = green ∧
      (eek_color_new red green blue alpha).blue = blue ∧
      (eek_color_new red green blue alpha).alpha = alpha) ∧
    eek_color_new 0.2 0.4 0.6 1.0 = ⟨0.2, 0.4, 0.6, 1.0⟩ ∧
    eek_color_new 2 (-1) 7 (3 / 2) = ⟨2, -1, 7, 3 / 2⟩ :=
  ⟨fun _ _ _ _ => ⟨rfl, rfl, rfl, rfl⟩, rfl, rfl⟩
